import Mathlib

/-!
Shallow embedding of the listener core of the `interprocess` repository:
the Windows named-pipe listener's instance-recycling accept state machine
(src/os/windows/named_pipe/listener.rs and listener/options.rs), the Unix
domain-socket listener with its name-reclamation guard
(src/os/unix/uds_local_socket/listener.rs), the generic `Incoming` iterator
(src/local_socket/listener/trait.rs), and the Windows local-socket bind path
construction (src/os/windows/local_socket/listener.rs).

Native OS calls (ConnectNamedPipe, CreateNamedPipe, SetNamedPipeHandleState,
bind/listen) are modelled as oracles: an environment record states, for one
call, what the OS would have answered.  Machine state that lives behind
`&self` interior mutability (Mutex, AtomicBool) is threaded explicitly; each
public operation maps the pre-state and the oracle to (result, post-state).
-/

namespace Interprocess

/-! ## Windows named-pipe listener (src/os/windows/named_pipe/listener.rs) -/

/-- Win32 `ERROR_PIPE_CONNECTED` code, compared against by `block_on_connect`. -/
def ERROR_PIPE_CONNECTED : Nat := 535

/-- A kernel pipe-instance handle as the listener observes it: an identity,
whether a client has connected to it, and its nonblocking mode.  Mirrors the
`FileHandle` stored in `PipeListener::stored_instance`. -/
structure FileHandle where
  id : Nat
  connected : Bool
  nonblocking : Bool
deriving DecidableEq, Repr

/-- `PipeListenerOptions` (listener/options.rs): the immutable creation-options
record.  `security_descriptor` is opaque to the core and modelled as presence. -/
structure PipeListenerOptions where
  path : String
  nonblocking : Bool
  instance_limit : Option Nat
  write_through : Bool
  accept_remote : Bool
  input_buffer_size_hint : Nat
  output_buffer_size_hint : Nat
  security_descriptor : Option Unit
  inheritable : Bool
deriving DecidableEq, Repr

/-- `PipeListenerOptions::new()`: the defaults from listener/options.rs. -/
def PipeListenerOptions.new : PipeListenerOptions :=
  { path := ""
    nonblocking := false
    instance_limit := none
    write_through := false
    accept_remote := false
    input_buffer_size_hint := 512
    output_buffer_size_hint := 512
    security_descriptor := none
    inheritable := false }

/-- `PipeListener`: creation options, the atomic nonblocking flag, and the
mutex-guarded stored (spare) instance. -/
structure PipeListener where
  config : PipeListenerOptions
  nonblocking : Bool
  stored_instance : FileHandle
deriving DecidableEq, Repr

/-- A server-side pipe stream, wrapping the instance handed out by `accept`
(`RawPipeStream::new_server`). -/
structure PipeStream where
  handle : FileHandle
deriving DecidableEq, Repr

/-- `block_on_connect` (listener.rs): outcome of `ConnectNamedPipe` on the
stored instance, given whether the native call returned nonzero and, if not,
the thread's last OS error code.  Success also when the error is
`ERROR_PIPE_CONNECTED` (client connected between creation and this wait). -/
def block_on_connect (success : Bool) (lastError : Nat) : Except Nat Unit :=
  if success then .ok ()
  else if lastError = ERROR_PIPE_CONNECTED then .ok ()
  else .error lastError

/-- OS oracle for one `accept` call: the answer `ConnectNamedPipe` gives on the
stored instance, and the outcome of creating the replacement instance
(`create_instance` is not under src/; a fresh kernel handle id on success,
an OS error code on failure). -/
structure AcceptEnv where
  connectSuccess : Bool
  connectLastError : Nat
  createResult : Except Nat Nat

/-- `PipeListener::create_instance` (listener.rs): asks the OS for a fresh
instance with the creation options and the given nonblocking flag.  Modelled
from the spec: the body (`PipeListenerOptions::create_instance`, in
listener/create_instance.rs) is not under src/; a freshly created instance has
no client connected to it. -/
def PipeListener.create_instance (_l : PipeListener) (nonblocking : Bool)
    (env : AcceptEnv) : Except Nat FileHandle :=
  match env.createResult with
  | .error e => .error e
  | .ok h => .ok { id := h, connected := false, nonblocking := nonblocking }

/-- `PipeListener::accept` (listener.rs): under the lock, read the nonblocking
flag, wait for a client on the stored instance, create a replacement instance
with that flag, and `replace` it into the slot; the previously stored, now
connected, instance is wrapped into the returned stream.  An early `?` return
leaves the slot as it then is: untouched after a failed wait, holding the
connected instance after a failed replacement creation. -/
def PipeListener.accept (l : PipeListener) (env : AcceptEnv) :
    Except Nat PipeStream × PipeListener :=
  let nonblocking := l.nonblocking
  match block_on_connect env.connectSuccess env.connectLastError with
  | .error e => (.error e, l)
  | .ok () =>
    let connectedInst : FileHandle := { l.stored_instance with connected := true }
    match l.create_instance nonblocking env with
    | .error e => (.error e, { l with stored_instance := connectedInst })
    | .ok newInst =>
      (.ok { handle := connectedInst }, { l with stored_instance := newInst })

/-- OS oracle for one `set_nonblocking` call: the outcome of the native
`SetNamedPipeHandleState` behind `set_nonblocking_given_readmode`. -/
structure SetNbEnv where
  setModeResult : Except Nat Unit

/-- `set_nonblocking_given_readmode` on a handle.  Modelled from the spec: the
body is not under src/ (only its fallible call site is); on success the native
call sets the instance's nonblocking mode, on failure it leaves it unchanged. -/
def set_nonblocking_given_readmode (h : FileHandle) (nonblocking : Bool)
    (env : SetNbEnv) : Except Nat FileHandle :=
  match env.setModeResult with
  | .error e => .error e
  | .ok () => .ok { h with nonblocking := nonblocking }

/-- `PipeListener::set_nonblocking` (listener.rs): under the lock, store the
atomic flag, then update the stored instance's mode; the early `?` return on a
native failure happens after the flag store. -/
def PipeListener.set_nonblocking (l : PipeListener) (nonblocking : Bool)
    (env : SetNbEnv) : Except Nat Unit × PipeListener :=
  let l1 : PipeListener := { l with nonblocking := nonblocking }
  match set_nonblocking_given_readmode l1.stored_instance nonblocking env with
  | .error e => (.error e, l1)
  | .ok h => (.ok (), { l1 with stored_instance := h })

/-- `PipeListenerOptions::create` (listener/options.rs): create the first
instance and build the listener, with the atomic flag initialized from the
options.  Modelled from the spec where `_create` is not under src/: the one
pre-created instance is fresh (no client connected) and carries the options'
initial nonblocking flag. -/
def PipeListenerOptions.create (opts : PipeListenerOptions)
    (createResult : Except Nat Nat) : Except Nat PipeListener :=
  match createResult with
  | .error e => .error e
  | .ok h =>
    .ok { config := opts
          nonblocking := opts.nonblocking
          stored_instance := { id := h, connected := false, nonblocking := opts.nonblocking } }

/-- The stored-instance slot holds a spare: an instance no client has
connected to yet. -/
def holdsSpare (l : PipeListener) : Prop := l.stored_instance.connected = false

instance (l : PipeListener) : Decidable (holdsSpare l) :=
  inferInstanceAs (Decidable (_ = _))

/-! ## Unix domain-socket listener (src/os/unix/uds_local_socket/listener.rs) -/

/-- The cross-platform error vocabulary relevant to the listener core
(std `io::ErrorKind` restricted to the kinds the code branches on). -/
inductive ErrorKind where
  | alreadyExists
  | addrInUse
  | wouldBlock
  | notFound
  | permissionDenied
  | other
deriving DecidableEq, Repr

/-- An `io::Error`: its kind plus, when it came from the OS, the raw code.
`io::Error::from(kind)` carries no raw OS code. -/
structure IoError where
  kind : ErrorKind
  raw : Option Int
deriving DecidableEq, Repr

/-- `io::Error::from(kind)`. -/
def IoError.fromKind (k : ErrorKind) : IoError := { kind := k, raw := none }

/-- A local-socket name: the raw text and whether it is of the namespaced kind
(`is_namespaced`) as opposed to the filesystem-path kind. -/
structure Name where
  raw : String
  namespaced : Bool
deriving DecidableEq, Repr

/-- Modelled from the spec: `ReclaimGuard` (uds_local_socket/mod.rs, not under
src/) owns at most one name designating a socket file this process created;
`forget` empties it, the `Default` guard is empty, and on drop it deletes the
held path, if any. -/
structure ReclaimGuard where
  held : Option Name
deriving DecidableEq, Repr

/-- `ReclaimGuard::new(name)`: a guard holding the given name. -/
def ReclaimGuard.new (n : Name) : ReclaimGuard := ⟨some n⟩

/-- `ReclaimGuard::forget`: the guard after its name is taken out, so drop
deletes nothing. -/
def ReclaimGuard.forget (_g : ReclaimGuard) : ReclaimGuard := ⟨none⟩

/-- `ReclaimGuard::default()`: the empty guard. -/
def ReclaimGuard.default : ReclaimGuard := ⟨none⟩

/-- Modelled from the spec: the filesystem path, if any, the guard unlinks
when dropped. -/
def ReclaimGuard.dropDeletes (g : ReclaimGuard) : Option Name := g.held

/-- A bound `std::os::unix::net::UnixListener`, identified by its descriptor. -/
structure UnixListener where
  fd : Nat
deriving DecidableEq, Repr

/-- An `OwnedFd`. -/
structure OwnedFd where
  fd : Nat
deriving DecidableEq, Repr

/-- The uds_local_socket `Listener`: the bound socket plus its reclaim guard. -/
structure Listener where
  listener : UnixListener
  reclaim : ReclaimGuard
deriving DecidableEq, Repr

/-- `Listener::decode_listen_error` (listener.rs): a native `AlreadyExists`
bind failure becomes `io::Error::from(AddrInUse)`; every other error is
returned unchanged. -/
def Listener.decode_listen_error (e : IoError) : IoError :=
  match e.kind with
  | .alreadyExists => IoError.fromKind .addrInUse
  | _ => e

/-- OS oracle for one `_bind` call: the outcome of `name_to_addr` (not under
src/, modelled as fallible address resolution) and of
`UnixListener::bind_addr` on that address. -/
structure BindEnv where
  nameToAddr : Except IoError Unit
  bindAddr : Except IoError UnixListener

/-- `Listener::_bind` (listener.rs): resolve the name to an address (errors
propagate raw), bind+listen (errors go through `decode_listen_error`), and
hold the name in a fresh guard exactly when `keep_name` is set, else the
default (empty) guard. -/
def Listener._bind (name : Name) (keep_name : Bool) (env : BindEnv) :
    Except IoError Listener :=
  match env.nameToAddr with
  | .error e => .error e
  | .ok () =>
    match env.bindAddr with
    | .error e => .error (Listener.decode_listen_error e)
    | .ok ul =>
      .ok { listener := ul
            reclaim := if keep_name then ReclaimGuard.new name else ReclaimGuard.default }

/-- `traits::Listener::bind` for the Unix listener: `_bind` with
name-reclamation kept. -/
def Listener.bind (name : Name) (env : BindEnv) : Except IoError Listener :=
  Listener._bind name true env

/-- `traits::Listener::bind_without_name_reclamation` for the Unix listener:
`_bind` without keeping the name. -/
def Listener.bind_without_name_reclamation (name : Name) (env : BindEnv) :
    Except IoError Listener :=
  Listener._bind name false env

/-- `traits::Listener::do_not_reclaim_name_on_drop`: forgets the reclaim
guard's name. -/
def Listener.do_not_reclaim_name_on_drop (l : Listener) : Listener :=
  { l with reclaim := l.reclaim.forget }

/-- `From<Listener> for UnixListener` (listener.rs): forget the guard, then
move the inner socket out; the pair records the socket handed out and the
state of the guard that is dropped at the end of the conversion. -/
def Listener.into_unix_listener (l : Listener) : UnixListener × ReclaimGuard :=
  (l.listener, l.reclaim.forget)

/-- `From<Listener> for OwnedFd` (listener.rs): via `UnixListener::from`, then
the socket's descriptor is moved out. -/
def Listener.into_owned_fd (l : Listener) : OwnedFd × ReclaimGuard :=
  let p := l.into_unix_listener
  (⟨p.1.fd⟩, p.2)

/-- `From<OwnedFd> for Listener` (listener.rs): wrap the descriptor and start
with the default reclaim guard. -/
def Listener.from_owned_fd (fd : OwnedFd) : Listener :=
  { listener := ⟨fd.fd⟩, reclaim := ReclaimGuard.default }

/-! ## The `Incoming` iterator (src/local_socket/listener/trait.rs) -/

/-- An implementor of the `Listener` trait, as the generic `Incoming<L>` sees
it: an `accept` that, on the explicit listener state, produces an
`io::Result<Stream>` (here an arbitrary item type) and the next state. -/
structure TraitListener (σ : Type) (α : Type) where
  accept : σ → α × σ

/-- `Incoming<'_, L>`: a borrowed listener. -/
structure Incoming (σ α : Type) where
  listener : TraitListener σ α

/-- `Iterator::next` for `Incoming` (trait.rs): `Some(self.listener.accept())`,
unconditionally. -/
def Incoming.next (it : Incoming σ α) (s : σ) : Option α × σ :=
  let r := it.listener.accept s
  (some r.1, r.2)

/-- `usize::MAX` on the 64-bit targets the crate supports. -/
def USIZE_MAX : Nat := 2 ^ 64 - 1

/-- `Iterator::size_hint` for `Incoming` (trait.rs): `(usize::MAX, None)`. -/
def Incoming.size_hint (_it : Incoming σ α) : Nat × Option Nat :=
  (USIZE_MAX, none)

/-- The state after the first `n` `accept` calls, and the result of call
`n + 1`: `nthAccept L n s` is the result/state pair of the `(n+1)`-st accept
starting from `s`. -/
def nthAccept (L : TraitListener σ α) : Nat → σ → α × σ
  | 0, s => L.accept s
  | n + 1, s => nthAccept L n (L.accept s).2

/-- The result/state pair of the `(n+1)`-st `next` call on the iterator
starting from `s`. -/
def nthNext (it : Incoming σ α) : Nat → σ → Option α × σ
  | 0, s => it.next s
  | n + 1, s => nthNext it n (it.next s).2

/-! ## Windows local-socket listener bind (src/os/windows/local_socket/listener.rs) -/

/-- The `\\.\pipe\` pipe-namespace text prepended for namespaced names. -/
def pipeNamespace : String := "\\\\.\\pipe\\"

/-- The pipe path `LocalSocketListener::bind` stores into the creation
options: `[Path::new(r"\\.\pipe\"), path].iter().collect()` for a namespaced
name (the base ends in a separator and the name is a relative component, so
the collect concatenates), the path itself otherwise. -/
def localSocketBindPath (name : Name) : String :=
  if name.namespaced then pipeNamespace ++ name.raw else name.raw

/-- Windows `LocalSocketListener::bind` (local_socket/listener.rs): build
default options, set the path from the name's kind, attach a security
descriptor unless the caller opted out (the source names this opt-out flag
after unsafe binds; here it is `bind_unprotected`), and create the listener. -/
def LocalSocketListener.bind (name : Name) (bind_unprotected : Bool)
    (createResult : Except Nat Nat) : Except Nat PipeListener :=
  let opts : PipeListenerOptions :=
    { PipeListenerOptions.new with
        path := localSocketBindPath name
        security_descriptor := if bind_unprotected then none else some () }
  opts.create createResult

/-! ## Concrete fixtures for witnesses and counterexamples -/

/-- A spare instance as stored right after listener construction. -/
def sampleInstance : FileHandle := { id := 1, connected := false, nonblocking := false }

/-- Options with a concrete path. -/
def sampleOptions : PipeListenerOptions := { PipeListenerOptions.new with path := "pipename" }

/-- A freshly constructed pipe listener holding `sampleInstance`. -/
def sampleListener : PipeListener :=
  { config := sampleOptions, nonblocking := false, stored_instance := sampleInstance }

/-- An accept call where the wait succeeds but creating the replacement
instance fails with OS error 5. -/
def recycleFailEnv : AcceptEnv :=
  { connectSuccess := true, connectLastError := 0, createResult := .error 5 }

/-- An accept call where everything succeeds; the replacement gets handle 2. -/
def okAcceptEnv : AcceptEnv :=
  { connectSuccess := true, connectLastError := 0, createResult := .ok 2 }

/-- A `set_nonblocking` call whose native mode-set fails with OS error 5. -/
def setNbFailEnv : SetNbEnv := { setModeResult := .error 5 }

/-- A `set_nonblocking` call whose native mode-set succeeds. -/
def setNbOkEnv : SetNbEnv := { setModeResult := .ok () }

/-- A filesystem-path local-socket name. -/
def samplePathName : Name := { raw := "/tmp/sock", namespaced := false }

/-- A namespaced local-socket name. -/
def sampleNsName : Name := { raw := "sockname", namespaced := true }

/-- A bind call where address resolution and bind+listen both succeed. -/
def okBindEnv : BindEnv := { nameToAddr := .ok (), bindAddr := .ok ⟨3⟩ }

/-- A bind call failing with a native `AlreadyExists`. -/
def existsBindEnv : BindEnv :=
  { nameToAddr := .ok (), bindAddr := .error { kind := .alreadyExists, raw := some 17 } }

/-- A concrete trait listener over state `Nat`: accept returns the state and
increments it. -/
def countListener : TraitListener Nat Nat := ⟨fun s => (s, s + 1)⟩

/-- An `Incoming` over `countListener`. -/
def countIncoming : Incoming Nat Nat := ⟨countListener⟩

/-! ## Characterization lemmas for the pipe-listener operations -/

/-- `accept` when the wait on the stored instance fails: the error propagates
and the state is untouched. -/
theorem accept_wait_error (l : PipeListener) (env : AcceptEnv) (e : Nat)
    (hb : block_on_connect env.connectSuccess env.connectLastError = .error e) :
    l.accept env = (.error e, l) := by
  unfold PipeListener.accept
  simp only [hb]

/-- `accept` when the wait succeeds but replacement creation fails: the error
propagates and the slot keeps the now connected instance. -/
theorem accept_create_error (l : PipeListener) (env : AcceptEnv) (e : Nat)
    (hb : block_on_connect env.connectSuccess env.connectLastError = .ok ())
    (hc : env.createResult = .error e) :
    l.accept env =
      (.error e, { l with stored_instance := { l.stored_instance with connected := true } }) := by
  unfold PipeListener.accept PipeListener.create_instance
  simp only [hb, hc]

/-- `accept` when the wait and the replacement creation both succeed: the
connected prior instance is handed out and the fresh instance fills the slot
with the flag that was read. -/
theorem accept_ok (l : PipeListener) (env : AcceptEnv) (hid : Nat)
    (hb : block_on_connect env.connectSuccess env.connectLastError = .ok ())
    (hc : env.createResult = .ok hid) :
    l.accept env =
      (.ok { handle := { l.stored_instance with connected := true } },
       { l with stored_instance :=
          { id := hid, connected := false, nonblocking := l.nonblocking } }) := by
  unfold PipeListener.accept PipeListener.create_instance
  simp only [hb, hc]

/-- `set_nonblocking` when the native mode-set fails: the error propagates but
the atomic flag has already been stored; the instance is untouched. -/
theorem set_nonblocking_error (l : PipeListener) (b : Bool) (env : SetNbEnv) (e : Nat)
    (henv : env.setModeResult = .error e) :
    l.set_nonblocking b env = (.error e, { l with nonblocking := b }) := by
  unfold PipeListener.set_nonblocking set_nonblocking_given_readmode
  simp only [henv]

/-- `set_nonblocking` when the native mode-set succeeds: flag and instance
mode both become the argument. -/
theorem set_nonblocking_ok (l : PipeListener) (b : Bool) (env : SetNbEnv)
    (henv : env.setModeResult = .ok ()) :
    l.set_nonblocking b env =
      (.ok (), { l with
        nonblocking := b
        stored_instance := { l.stored_instance with nonblocking := b } }) := by
  unfold PipeListener.set_nonblocking set_nonblocking_given_readmode
  simp only [henv]

/-! ## Claim theorems -/

/-- C1 counterexample: the claim is false as stated.  On a listener holding a
spare, an `accept` call whose wait succeeds but whose replacement-instance
creation fails leaves the slot holding the now connected instance, so after
that accept call the slot does not hold a spare, not-yet-connected instance. -/
theorem C1_counterexample :
    ¬ holdsSpare (sampleListener.accept recycleFailEnv).2 := by decide

/-- C1 (amended): after construction, after every `set_nonblocking` call, after
every successful `accept`, and after every `accept` that failed in the wait
step, the stored-instance slot holds exactly one spare, not-yet-connected
instance; only an `accept` that fails while creating the replacement instance
leaves the slot holding a connected (non-spare) instance. -/
theorem C1_spare_invariant :
    (∀ (opts : PipeListenerOptions) (r : Except Nat Nat) (l : PipeListener),
      PipeListenerOptions.create opts r = .ok l → holdsSpare l) ∧
    (∀ (l : PipeListener) (env : AcceptEnv) (s : PipeStream),
      (l.accept env).1 = .ok s → holdsSpare (l.accept env).2) ∧
    (∀ (l : PipeListener) (env : AcceptEnv) (e : Nat),
      holdsSpare l →
      block_on_connect env.connectSuccess env.connectLastError = .error e →
      holdsSpare (l.accept env).2) ∧
    (∀ (l : PipeListener) (b : Bool) (env : SetNbEnv),
      holdsSpare l → holdsSpare (l.set_nonblocking b env).2) := by
  refine ⟨?_, ?_, ?_, ?_⟩
  · intro opts r l h
    cases r with
    | error e => exact absurd h (by simp [PipeListenerOptions.create])
    | ok hid =>
      simp only [PipeListenerOptions.create, Except.ok.injEq] at h
      rw [← h]
      rfl
  · intro l env s h
    cases hb : block_on_connect env.connectSuccess env.connectLastError with
    | error e => rw [accept_wait_error l env e hb] at h; exact absurd h (by simp)
    | ok u =>
      cases u
      cases hc : env.createResult with
      | error e => rw [accept_create_error l env e hb hc] at h; exact absurd h (by simp)
      | ok hid => rw [accept_ok l env hid hb hc]; rfl
  · intro l env e hs hb
    rw [accept_wait_error l env e hb]
    exact hs
  · intro l b env hs
    cases henv : env.setModeResult with
    | error e => rw [set_nonblocking_error l b env e henv]; exact hs
    | ok u => cases u; rw [set_nonblocking_ok l b env henv]; exact hs

/-- C1 witness: a successful accept on a concrete listener leaves a spare in
the slot. -/
theorem C1_spare_invariant_witness :
    holdsSpare (sampleListener.accept okAcceptEnv).2 :=
  C1_spare_invariant.2.1 sampleListener okAcceptEnv
    ⟨{ id := 1, connected := true, nonblocking := false }⟩ rfl

/-- C2: a successful `accept` read the nonblocking flag, saw the wait succeed
on the stored spare, created the replacement with that flag, and swapped it
in; the returned stream wraps the instance stored before the call (now
connected) and afterwards the slot holds the freshly created instance, with
config and flag untouched. -/
theorem C2_accept_steps (l : PipeListener) (env : AcceptEnv) (s : PipeStream)
    (h : (l.accept env).1 = .ok s) :
    block_on_connect env.connectSuccess env.connectLastError = .ok () ∧
    s.handle = { l.stored_instance with connected := true } ∧
    (∃ hid, env.createResult = .ok hid ∧
      (l.accept env).2.stored_instance =
        { id := hid, connected := false, nonblocking := l.nonblocking }) ∧
    (l.accept env).2.config = l.config ∧
    (l.accept env).2.nonblocking = l.nonblocking := by
  cases hb : block_on_connect env.connectSuccess env.connectLastError with
  | error e => rw [accept_wait_error l env e hb] at h; exact absurd h (by simp)
  | ok u =>
    cases u
    cases hc : env.createResult with
    | error e => rw [accept_create_error l env e hb hc] at h; exact absurd h (by simp)
    | ok hid =>
      rw [accept_ok l env hid hb hc] at h
      rw [accept_ok l env hid hb hc]
      simp only [Except.ok.injEq] at h
      exact ⟨rfl, by rw [← h], ⟨hid, rfl, rfl⟩, rfl, rfl⟩

/-- C2 witness: on a concrete successful accept, the listener's flag is
untouched (by the claim theorem applied at that input). -/
theorem C2_accept_steps_witness :
    (sampleListener.accept okAcceptEnv).2.nonblocking = sampleListener.nonblocking :=
  (C2_accept_steps sampleListener okAcceptEnv
    ⟨{ id := 1, connected := true, nonblocking := false }⟩ rfl).2.2.2.2

/-- C4: if the wait succeeds but creating the replacement fails, `accept`
returns that error, the prior spare is consumed (the slot's instance is
connected, no longer a spare, though its identity is retained), and any later
accept whose wait and creation succeed works and restores the spare. -/
theorem C4_failed_recycle (l : PipeListener) (env : AcceptEnv) (e : Nat)
    (hwait : block_on_connect env.connectSuccess env.connectLastError = .ok ())
    (hcreate : env.createResult = .error e) :
    (l.accept env).1 = .error e ∧
    ¬ holdsSpare (l.accept env).2 ∧
    (l.accept env).2.stored_instance.id = l.stored_instance.id ∧
    ∀ (env' : AcceptEnv) (hid : Nat),
      block_on_connect env'.connectSuccess env'.connectLastError = .ok () →
      env'.createResult = .ok hid →
      (∃ s, ((l.accept env).2.accept env').1 = .ok s) ∧
      holdsSpare ((l.accept env).2.accept env').2 := by
  rw [accept_create_error l env e hwait hcreate]
  refine ⟨rfl, ?_, rfl, ?_⟩
  · simp [holdsSpare]
  · intro env' hid hwait' hcreate'
    rw [accept_ok _ env' hid hwait' hcreate']
    exact ⟨⟨_, rfl⟩, rfl⟩

/-- C4 witness: the concrete failed recycle returns error 5 and leaves no
spare. -/
theorem C4_failed_recycle_witness :
    (sampleListener.accept recycleFailEnv).1 = .error 5 ∧
    ¬ holdsSpare (sampleListener.accept recycleFailEnv).2 :=
  ⟨(C4_failed_recycle sampleListener recycleFailEnv 5 rfl rfl).1,
   (C4_failed_recycle sampleListener recycleFailEnv 5 rfl rfl).2.1⟩

/-- C3 counterexample: the claim is false as stated.  On a listener whose flag
and stored-instance mode are both `false`, a `set_nonblocking true` call whose
native mode-set fails returns the error with the atomic flag already updated
to `true` while the stored instance's mode is still `false`: flag and instance
disagree after a call that returned an error. -/
theorem C3_counterexample :
    (sampleListener.set_nonblocking true setNbFailEnv).1 = .error 5 ∧
    (sampleListener.set_nonblocking true setNbFailEnv).2.nonblocking = true ∧
    (sampleListener.set_nonblocking true setNbFailEnv).2.stored_instance.nonblocking
      = false :=
  ⟨rfl, rfl, rfl⟩

/-- C3 (amended): after a `set_nonblocking` call that returns successfully,
the stored atomic flag and the stored instance's nonblocking mode both equal
the argument, so they agree; a call that returns an error has already stored
the argument into the atomic flag but leaves the stored instance unchanged,
so the two can disagree until a later successful call. -/
theorem C3_set_nonblocking_sync (l : PipeListener) (b : Bool) (env : SetNbEnv) :
    ((l.set_nonblocking b env).1 = .ok () →
      (l.set_nonblocking b env).2.nonblocking = b ∧
      (l.set_nonblocking b env).2.stored_instance.nonblocking = b) ∧
    (∀ e, (l.set_nonblocking b env).1 = .error e →
      (l.set_nonblocking b env).2.nonblocking = b ∧
      (l.set_nonblocking b env).2.stored_instance = l.stored_instance) := by
  cases henv : env.setModeResult with
  | error e =>
    rw [set_nonblocking_error l b env e henv]
    exact ⟨fun h => absurd h (by simp), fun e' _ => ⟨rfl, rfl⟩⟩
  | ok u =>
    cases u
    rw [set_nonblocking_ok l b env henv]
    exact ⟨fun _ => ⟨rfl, rfl⟩, fun e' h => absurd h (by simp)⟩

/-- C3 witness: a concrete successful call leaves flag and instance mode in
agreement. -/
theorem C3_set_nonblocking_sync_witness :
    (sampleListener.set_nonblocking true setNbOkEnv).2.nonblocking = true ∧
    (sampleListener.set_nonblocking true setNbOkEnv).2.stored_instance.nonblocking
      = true :=
  (C3_set_nonblocking_sync sampleListener true setNbOkEnv).1 rfl

/-- `decode_listen_error` on an `AlreadyExists` failure. -/
theorem decode_listen_error_exists (e : IoError) (h : e.kind = .alreadyExists) :
    Listener.decode_listen_error e = IoError.fromKind .addrInUse := by
  cases e with
  | mk k raw => cases k <;> simp_all [Listener.decode_listen_error]

/-- `decode_listen_error` on any other failure. -/
theorem decode_listen_error_other (e : IoError) (h : e.kind ≠ .alreadyExists) :
    Listener.decode_listen_error e = e := by
  cases e with
  | mk k raw => cases k <;> simp_all [Listener.decode_listen_error]

/-- C5: on either bind path, when the name resolves and the native bind fails,
a failure of kind `AlreadyExists` is reported as `io::Error::from(AddrInUse)`
and every failure of any other kind is propagated to the caller unchanged. -/
theorem C5_bind_error_mapping (name : Name) (keep : Bool) (env : BindEnv) (e : IoError)
    (haddr : env.nameToAddr = .ok ())
    (hbind : env.bindAddr = .error e) :
    (e.kind = .alreadyExists →
      Listener._bind name keep env = .error (IoError.fromKind .addrInUse)) ∧
    (e.kind ≠ .alreadyExists → Listener._bind name keep env = .error e) := by
  have hb : Listener._bind name keep env = .error (Listener.decode_listen_error e) := by
    unfold Listener._bind
    rw [haddr, hbind]
  constructor
  · intro hk
    rw [hb, decode_listen_error_exists e hk]
  · intro hk
    rw [hb, decode_listen_error_other e hk]

/-- C5 witness: a concrete `AlreadyExists` bind failure surfaces as
`AddrInUse`. -/
theorem C5_bind_error_mapping_witness :
    Listener._bind samplePathName true existsBindEnv
      = .error (IoError.fromKind .addrInUse) :=
  (C5_bind_error_mapping samplePathName true existsBindEnv
    { kind := .alreadyExists, raw := some 17 } rfl rfl).1 rfl

/-- C6: `bind_without_name_reclamation` equals `bind` followed by
`do_not_reclaim_name_on_drop` (so it succeeds or fails exactly as `bind`
does), and on success the resulting listener's reclaim guard holds no name
and deletes nothing on drop. -/
theorem C6_bind_without_reclamation (name : Name) (env : BindEnv) :
    Listener.bind_without_name_reclamation name env
      = (Listener.bind name env).map Listener.do_not_reclaim_name_on_drop ∧
    ∀ l, Listener.bind_without_name_reclamation name env = .ok l →
      l.reclaim.held = none ∧ l.reclaim.dropDeletes = none := by
  unfold Listener.bind_without_name_reclamation Listener.bind Listener._bind
  cases env.nameToAddr with
  | error e => exact ⟨rfl, by intro l h; exact absurd h (by simp)⟩
  | ok u =>
    cases u
    cases env.bindAddr with
    | error e => exact ⟨rfl, by intro l h; exact absurd h (by simp)⟩
    | ok ul =>
      refine ⟨rfl, ?_⟩
      intro l h
      simp only [if_neg Bool.false_ne_true, Except.ok.injEq] at h
      rw [← h]
      exact ⟨rfl, rfl⟩

/-- C6 witness: a concrete successful reclamation-free bind yields an empty
guard. -/
theorem C6_bind_without_reclamation_witness :
    (({ listener := ⟨3⟩, reclaim := ReclaimGuard.default } :
        Listener)).reclaim.held = none :=
  ((C6_bind_without_reclamation samplePathName okBindEnv).2
    { listener := ⟨3⟩, reclaim := ReclaimGuard.default } rfl).1

/-- C7: `block_on_connect` succeeds exactly when the native `ConnectNamedPipe`
call succeeded or the last OS error is `ERROR_PIPE_CONNECTED` (a client that
connected between creation and the wait counts as success); every other
failure is returned as the error. -/
theorem C7_block_on_connect (success : Bool) (lastError : Nat) :
    (block_on_connect success lastError = .ok () ↔
      success = true ∨ lastError = ERROR_PIPE_CONNECTED) ∧
    (success = false → lastError ≠ ERROR_PIPE_CONNECTED →
      block_on_connect success lastError = .error lastError) := by
  unfold block_on_connect
  cases success <;> by_cases h : lastError = ERROR_PIPE_CONNECTED <;> simp [h]

/-- C7 witness: a failed native call with last error `ERROR_PIPE_CONNECTED`
counts as success, and one with a different code is returned as the error. -/
theorem C7_block_on_connect_witness :
    block_on_connect false ERROR_PIPE_CONNECTED = .ok () ∧
    block_on_connect false 5 = .error 5 :=
  ⟨(C7_block_on_connect false ERROR_PIPE_CONNECTED).1.mpr (Or.inr rfl),
   (C7_block_on_connect false 5).2 rfl (by decide)⟩

/-- C8: for every listener state, the `(n+1)`-st `next` on an `Incoming`
iterator yields `some` of the `(n+1)`-st `accept` result and advances the
listener exactly as `accept` does; `next` never yields `none`, and
`size_hint` is `(usize::MAX, None)`. -/
theorem C8_incoming_next {σ α : Type} (it : Incoming σ α) (n : Nat) (s : σ) :
    (nthNext it n s).1 = some (nthAccept it.listener n s).1 ∧
    (nthNext it n s).2 = (nthAccept it.listener n s).2 ∧
    (nthNext it n s).1 ≠ none ∧
    it.size_hint = (USIZE_MAX, none) := by
  induction n generalizing s with
  | zero => exact ⟨rfl, rfl, by simp [nthNext, Incoming.next], rfl⟩
  | succ n ih =>
    have hstep : (it.next s).2 = (it.listener.accept s).2 := rfl
    refine ⟨?_, ?_, ?_, rfl⟩
    · show (nthNext it n (it.next s).2).1 = some (nthAccept it.listener n (it.listener.accept s).2).1
      rw [hstep]
      exact (ih _).1
    · show (nthNext it n (it.next s).2).2 = (nthAccept it.listener n (it.listener.accept s).2).2
      rw [hstep]
      exact (ih _).2.1
    · show (nthNext it n (it.next s).2).1 ≠ none
      exact (ih _).2.2.1

/-- C8 witness: on a concrete counting listener, the third `next` yields
`some` of the third `accept` result. -/
theorem C8_incoming_next_witness :
    (nthNext countIncoming 2 0).1 = some (nthAccept countListener 2 0).1 :=
  (C8_incoming_next countIncoming 2 0).1

/-- C9: on Windows, a successful local-socket bind hands the native creation
call the `\\.\pipe\` pipe-namespace text joined with the name when the name is
namespaced, and the bare path when it is of the filesystem-path kind. -/
theorem C9_windows_bind_path (name : Name) (bu : Bool) (r : Except Nat Nat)
    (l : PipeListener) (h : LocalSocketListener.bind name bu r = .ok l) :
    (name.namespaced = true → l.config.path = pipeNamespace ++ name.raw) ∧
    (name.namespaced = false → l.config.path = name.raw) := by
  cases r with
  | error e =>
    exact absurd h (by simp [LocalSocketListener.bind, PipeListenerOptions.create])
  | ok hid =>
    simp only [LocalSocketListener.bind, PipeListenerOptions.create,
      Except.ok.injEq] at h
    rw [← h]
    unfold localSocketBindPath
    cases hn : name.namespaced <;> simp [hn]

/-- C9 witness: a concrete namespaced name gets the pipe-namespace text
prepended. -/
theorem C9_windows_bind_path_witness :
    (({ config := { PipeListenerOptions.new with
          path := localSocketBindPath sampleNsName
          security_descriptor := some () }
        nonblocking := false
        stored_instance := { id := 7, connected := false, nonblocking := false } } :
      PipeListener)).config.path = pipeNamespace ++ "sockname" :=
  (C9_windows_bind_path sampleNsName false (.ok 7) _ rfl).1 rfl

/-- C10: converting the Unix listener into a `UnixListener` or an `OwnedFd`
forgets the reclaim guard first, so the guard dropped by the conversion
deletes no path and the returned value carries none; a listener built from an
`OwnedFd` starts with the default (empty) guard, which deletes nothing on
drop. -/
theorem C10_conversions_forget_reclaim (l : Listener) (fd : OwnedFd) :
    (l.into_unix_listener).2.dropDeletes = none ∧
    (l.into_owned_fd).2.dropDeletes = none ∧
    (Listener.from_owned_fd fd).reclaim = ReclaimGuard.default ∧
    (Listener.from_owned_fd fd).reclaim.dropDeletes = none :=
  ⟨rfl, rfl, rfl, rfl⟩

end Interprocess
